import Mathlib

set_option maxRecDepth 8000

/-! Shallow embedding of the figma-parser structural compression engine
(`src/figma-parser.ts`) and of the `get_swift_tree` tool handler
(`src/index.ts`).  JavaScript numbers are modelled as rationals, optional
fields as `Option`, and JS truthiness is spelled out explicitly at every
use site (`0`, `""`, `undefined` are falsy).  The recursive compressor
threads an explicit depth in the source with a hard cap of 20; here it is
re-parameterised by the remaining fuel `21 - depth`, which agrees with the
source step for step and makes the recursion structurally decreasing. -/

-- ───────────────────────── Data model ─────────────────────────

/-- RGBA color with channels in the unit interval, as in the raw node fills. -/
structure RGBA where
  r : Rat
  g : Rat
  b : Rat
  a : Rat
deriving DecidableEq

/-- One entry of a raw fill list: a paint kind, an optional solid color,
and an optional per-fill opacity (unused by the compressor). -/
structure FigmaFill where
  type : String
  color : Option RGBA
  opacity : Option Rat
deriving DecidableEq

/-- Absolute bounding box of a raw node. -/
structure BBox where
  x : Rat
  y : Rat
  width : Rat
  height : Rat
deriving DecidableEq

/-- Raw Figma node (the `FigmaNode` interface).  An absent `children` array
and an empty one are conflated: the source only ever tests emptiness or
iterates, so the two are indistinguishable.  Likewise for `fills`. -/
inductive FigmaNode where
  | mk
    (id : String) (name : String) (type : String)
    (children : List FigmaNode)
    (characters : Option String)
    (absoluteBoundingBox : Option BBox)
    (fills : List FigmaFill)
    (cornerRadius : Option Rat)
    (layoutMode : Option String)
    (itemSpacing : Option Rat)
    (paddingLeft : Option Rat) (paddingRight : Option Rat)
    (paddingTop : Option Rat) (paddingBottom : Option Rat)
    (opacity : Option Rat)
    (visible : Option Bool)

def FigmaNode.id : FigmaNode → String
  | .mk v _ _ _ _ _ _ _ _ _ _ _ _ _ _ _ => v

def FigmaNode.name : FigmaNode → String
  | .mk _ v _ _ _ _ _ _ _ _ _ _ _ _ _ _ => v

def FigmaNode.type : FigmaNode → String
  | .mk _ _ v _ _ _ _ _ _ _ _ _ _ _ _ _ => v

def FigmaNode.children : FigmaNode → List FigmaNode
  | .mk _ _ _ v _ _ _ _ _ _ _ _ _ _ _ _ => v

def FigmaNode.characters : FigmaNode → Option String
  | .mk _ _ _ _ v _ _ _ _ _ _ _ _ _ _ _ => v

def FigmaNode.absoluteBoundingBox : FigmaNode → Option BBox
  | .mk _ _ _ _ _ v _ _ _ _ _ _ _ _ _ _ => v

def FigmaNode.fills : FigmaNode → List FigmaFill
  | .mk _ _ _ _ _ _ v _ _ _ _ _ _ _ _ _ => v

def FigmaNode.cornerRadius : FigmaNode → Option Rat
  | .mk _ _ _ _ _ _ _ v _ _ _ _ _ _ _ _ => v

def FigmaNode.layoutMode : FigmaNode → Option String
  | .mk _ _ _ _ _ _ _ _ v _ _ _ _ _ _ _ => v

def FigmaNode.itemSpacing : FigmaNode → Option Rat
  | .mk _ _ _ _ _ _ _ _ _ v _ _ _ _ _ _ => v

def FigmaNode.paddingLeft : FigmaNode → Option Rat
  | .mk _ _ _ _ _ _ _ _ _ _ v _ _ _ _ _ => v

def FigmaNode.paddingRight : FigmaNode → Option Rat
  | .mk _ _ _ _ _ _ _ _ _ _ _ v _ _ _ _ => v

def FigmaNode.paddingTop : FigmaNode → Option Rat
  | .mk _ _ _ _ _ _ _ _ _ _ _ _ v _ _ _ => v

def FigmaNode.paddingBottom : FigmaNode → Option Rat
  | .mk _ _ _ _ _ _ _ _ _ _ _ _ _ v _ _ => v

def FigmaNode.opacity : FigmaNode → Option Rat
  | .mk _ _ _ _ _ _ _ _ _ _ _ _ _ _ v _ => v

def FigmaNode.visible : FigmaNode → Option Bool
  | .mk _ _ _ _ _ _ _ _ _ _ _ _ _ _ _ v => v

/-- The optional four-sided padding record attached to stacks. -/
structure SPadding where
  top : Option Rat
  right : Option Rat
  bottom : Option Rat
  left : Option Rat
deriving DecidableEq

/-- Output slim node (the `SlimNode` interface).  The source attaches the
`children` array only when it is nonempty, so an absent field and an empty
list are conflated here as `[]`. -/
inductive SlimNode where
  | mk
    (name : String) (type : String)
    (content : Option String) (icon : Option String) (fill : Option String)
    (opacity : Option Rat) (cornerRadius : Option Rat)
    (width : Option Int) (height : Option Int)
    (spacing : Option Rat) (padding : Option SPadding)
    (children : List SlimNode)

def SlimNode.name : SlimNode → String
  | .mk v _ _ _ _ _ _ _ _ _ _ _ => v

def SlimNode.type : SlimNode → String
  | .mk _ v _ _ _ _ _ _ _ _ _ _ => v

def SlimNode.content : SlimNode → Option String
  | .mk _ _ v _ _ _ _ _ _ _ _ _ => v

def SlimNode.icon : SlimNode → Option String
  | .mk _ _ _ v _ _ _ _ _ _ _ _ => v

def SlimNode.fill : SlimNode → Option String
  | .mk _ _ _ _ v _ _ _ _ _ _ _ => v

def SlimNode.opacity : SlimNode → Option Rat
  | .mk _ _ _ _ _ v _ _ _ _ _ _ => v

def SlimNode.cornerRadius : SlimNode → Option Rat
  | .mk _ _ _ _ _ _ v _ _ _ _ _ => v

def SlimNode.width : SlimNode → Option Int
  | .mk _ _ _ _ _ _ _ v _ _ _ _ => v

def SlimNode.height : SlimNode → Option Int
  | .mk _ _ _ _ _ _ _ _ v _ _ _ => v

def SlimNode.spacing : SlimNode → Option Rat
  | .mk _ _ _ _ _ _ _ _ _ v _ _ => v

def SlimNode.padding : SlimNode → Option SPadding
  | .mk _ _ _ _ _ _ _ _ _ _ v _ => v

def SlimNode.children : SlimNode → List SlimNode
  | .mk _ _ _ _ _ _ _ _ _ _ _ v => v

/-- The spread `{ ...child, name: node.name }` used by single-child
flattening: replace the name, keep every other attribute. -/
def SlimNode.withName : SlimNode → String → SlimNode
  | .mk _ t c i f o cr w h s p ch, n => .mk n t c i f o cr w h s p ch

-- ───────────────────────── Numeric helpers ─────────────────────────

/-- JavaScript `Math.round`: round half toward positive infinity. -/
def jsRound (x : Rat) : Int := (x + 1 / 2).floor

/-- JS truthiness of an optional number: absent and `0` are falsy. -/
def ratTruthy : Option Rat → Bool
  | some v => decide (v ≠ 0)
  | none => false

/-- `Math.round(o * 100) / 100`: opacity rounded to two decimals. -/
def round2 (o : Rat) : Rat := ((jsRound (o * 100) : Int) : Rat) / 100

/-- Lowercase hex digits of a natural number, as `Number.toString(16)`. -/
def natToHexDigits (n : Nat) : String := (Nat.toDigits 16 n).asString

/-- `String.padStart(2, "0")`. -/
def padStart2 (s : String) : String :=
  if s.length == 0 then ("00")
  else if s.length == 1 then ("0") ++ s
  else s

/-- `i.toString(16)` for an integer (negative gets a leading minus sign). -/
def intToHexStr (i : Int) : String :=
  if i < 0 then ("-") ++ natToHexDigits i.natAbs else natToHexDigits i.toNat

/-- One rounded, zero-padded hex byte of a scaled channel. -/
def hexByte (x : Rat) : String := padStart2 (intToHexStr (jsRound x))

/-- `rgbaToHex`: 6-digit hex, with an alpha byte appended only when `a < 1`. -/
def rgbaToHex (c : RGBA) : String :=
  let base := ("#") ++ hexByte (c.r * 255) ++ hexByte (c.g * 255) ++ hexByte (c.b * 255)
  if c.a < 1 then base ++ hexByte (c.a * 255) else base

-- ───────────────────────── SF Symbol map ─────────────────────────

/-- The fixed glyph-to-identifier table `SF_SYMBOLS`. -/
def SF_SYMBOLS : List (String × String) :=
  [("􀆉", "chevron.left"), ("􀅍", "questionmark"), ("􀈑", "trash"),
   ("􀆄", "xmark"), ("􀆅", "checkmark"), ("􀆊", "chevron.right"),
   ("􀜇", "location"), ("􀛿", "eye"), ("􀏭", "photo.on.rectangle"),
   ("􀏰", "photo.on.rectangle"), ("􀉣", "tag"), ("􂞷", "trophy"),
   ("􁃐", "photo.badge.plus"), ("􀆪", "globe"), ("􀎠", "lock"),
   ("􀅴", "info.circle"), ("􀊫", "heart"), ("􀊬", "heart.fill"),
   ("􀈂", "square.and.arrow.up"), ("􀙧", "person.2"), ("􀉩", "bookmark"),
   ("􀍟", "ellipsis"), ("􀎞", "gear"), ("􀣘", "camera"), ("􀏟", "photo"),
   ("􀅼", "plus"), ("􀅽", "minus"), ("􀊃", "magnifyingglass"),
   ("􀋂", "bell"), ("􀋃", "bell.fill"), ("􀌜", "house"), ("􀌝", "house.fill")]

-- ───────────────────────── Node classifier ─────────────────────────

/-- The name-only, unconditional part of the decorative denylist: every
name test of `isDecorative` except the childless `"overlay"` rule, on the
lower-cased trimmed name.  The source performs these as a chain of
independent early-return ifs, equivalent to this disjunction. -/
def decorativeNameOnly (name : String) : Bool :=
  let n := name.toLower.trim
  n == ("status bar") || n == ("time") || n == ("levels") ||
  n == ("cellular connection") || n == ("wifi") ||
  n == ("blur") || n == ("mask") || n == ("shadow") || n == ("tint") ||
  n == ("glass effect") || n.startsWith ("liquid glass") ||
  n == ("bg") || n == ("background") ||
  n.startsWith ("scroll edge effect") ||
  n.startsWith ("scrollbar") ||
  n == ("thumb") || n == ("grabber") ||
  n == ("cap") || n == ("capacity") || n == ("border")

/-- Rule 1, `isDecorative`: explicit invisibility, or a lower-cased trimmed
name on the fixed denylist; the `"overlay"` entry additionally requires the
node to be childless. -/
def isDecorative (node : FigmaNode) : Bool :=
  node.visible == some false ||
  decorativeNameOnly node.name ||
  (node.name.toLower.trim == ("overlay") && node.children.isEmpty)

/-- The full decorative denylist read as a predicate on an output node,
as the spec states it: the unconditional name entries, or a childless
node named `"overlay"`. -/
def outputDenylistMatch (s : SlimNode) : Bool :=
  decorativeNameOnly s.name || (s.name.toLower.trim == ("overlay") && s.children.isEmpty)

/-- JS truthiness of `node.characters` (absent or empty string is falsy). -/
def charsTruthy (node : FigmaNode) : Bool :=
  match node.characters with
  | some s => s != ("")
  | none => false

/-- Rule 2, `isEmptyLeaf`. -/
def isEmptyLeaf (node : FigmaNode) : Bool :=
  if node.type == ("TEXT") &&
      (match node.characters with
       | some s => s.trim != ("")
       | none => false) then false
  else if !node.children.isEmpty then false
  else if node.type == ("VECTOR") || node.type == ("BOOLEAN_OPERATION") then false
  else if node.type == ("FRAME") || node.type == ("GROUP") || node.type == ("RECTANGLE") ||
      node.type == ("INSTANCE") || node.type == ("COMPONENT") then true
  else false

/-- `hasImageFill`: the own fill list of the node holds an image-kind entry. -/
def hasImageFill (node : FigmaNode) : Bool :=
  node.fills.any (fun f => f.type == ("IMAGE"))

mutual

/-- `hasTextDescendant`: the node itself, or any raw descendant, is a text
node.  Note that this scan is not depth-capped. -/
def hasTextDescendant : FigmaNode → Bool
  | .mk _ _ ty cs _ _ _ _ _ _ _ _ _ _ _ _ =>
    ty == ("TEXT") || hasTextDescendantList cs

def hasTextDescendantList : List FigmaNode → Bool
  | [] => false
  | c :: rest => hasTextDescendant c || hasTextDescendantList rest

end

/-- Rule 3, `classifyType`: first matching rule wins. -/
def classifyType (node : FigmaNode) : String :=
  if node.type == ("TEXT") then ("Text")
  else if node.type == ("VECTOR") || node.type == ("BOOLEAN_OPERATION") then ("Shape")
  else if hasImageFill node && !hasTextDescendant node then ("Image")
  else if node.layoutMode == some ("HORIZONTAL") then ("HStack")
  else if node.layoutMode == some ("VERTICAL") then ("VStack")
  else if node.type == ("INSTANCE") || node.type == ("COMPONENT") then ("Component")
  else if node.type == ("FRAME") || node.type == ("GROUP") then ("Frame")
  else ("View")

-- ───────────────────────── Attribute helpers ─────────────────────────

/-- `getSolidFill`: hex of the first solid fill that carries a color. -/
def getSolidFill (node : FigmaNode) : Option String :=
  match node.fills.find? (fun f => f.type == ("SOLID") && f.color.isSome) with
  | some f => f.color.map rgbaToHex
  | none => none

/-- `hasMeaningfulPadding`: at least one side is present and nonzero. -/
def hasMeaningfulPadding (node : FigmaNode) : Bool :=
  ratTruthy node.paddingTop || ratTruthy node.paddingRight ||
  ratTruthy node.paddingBottom || ratTruthy node.paddingLeft

/-- `getPadding`: the four sides, each attached only when truthy. -/
def getPadding (node : FigmaNode) : Option SPadding :=
  if hasMeaningfulPadding node then
    some ⟨(if ratTruthy node.paddingTop then node.paddingTop else none),
          (if ratTruthy node.paddingRight then node.paddingRight else none),
          (if ratTruthy node.paddingBottom then node.paddingBottom else none),
          (if ratTruthy node.paddingLeft then node.paddingLeft else none)⟩
  else none

-- ───────────────────────── Flattening predicates ─────────────────────────

/-- `isDefaultFill` of the single-child flattening step: no solid fill, or
pure black/white in 6- or 8-digit form. -/
def wrapperDefaultFill (node : FigmaNode) : Bool :=
  match getSolidFill node with
  | none => true
  | some fill =>
    fill == ("#000000") || fill == ("#ffffff") ||
    fill == ("#000000ff") || fill == ("#ffffffff")

/-- `hasVisibleCorner`: a truthy corner radius strictly between 0 and 100. -/
def hasVisibleCorner (node : FigmaNode) : Bool :=
  match node.cornerRadius with
  | some r => decide (r ≠ 0) && decide (0 < r) && decide (r < 100)
  | none => false

/-- `hasOpacity` of the flattening step: an explicit opacity below 1. -/
def hasOpacityLt1 (node : FigmaNode) : Bool :=
  match node.opacity with
  | some o => decide (o < 1)
  | none => false

/-- A single-child wrapper is visually meaningful when it has a non-default
fill, a visible corner, or an opacity below 1; only then is it kept. -/
def wrapperMeaningful (node : FigmaNode) : Bool :=
  !(wrapperDefaultFill node) || hasVisibleCorner node || hasOpacityLt1 node

/-- `isGenericName`: placeholder wrapper names whose child keeps its own
name on flattening.  Prefix match for `frame`, `accessories` and `_`,
exact match for the rest, on the lower-cased (untrimmed) name. -/
def isGenericName (node : FigmaNode) : Bool :=
  let currentName := node.name.toLower
  currentName.startsWith ("frame") || currentName == ("container") ||
  currentName == ("contents") || currentName == ("content") ||
  currentName.startsWith ("accessories") || currentName.startsWith ("_") ||
  currentName == ("text") || currentName == ("image")

-- ───────────────────────── Slim node construction ─────────────────────────

/-- The text-leaf branch of `parse`, entered when the node is a text kind
with truthy characters `s`. -/
def textLeaf (node : FigmaNode) (s : String) : Option SlimNode :=
  let trimmed := s.trim
  if trimmed == ("") then none
  else
    match SF_SYMBOLS.lookup trimmed with
    | some icon =>
      some (SlimNode.mk node.name ("Icon") none (some icon) none none none none none none none [])
    | none =>
      let fill := getSolidFill node
      let fillOut : Option String :=
        match fill with
        | some f => if f != ("#000000") && f != ("#000000ff") then some f else none
        | none => none
      some (SlimNode.mk node.name ("Text") (some trimmed) none fillOut none none none none none none [])

/-- The all-children-pruned escape hatch for nodes with an image fill:
name, rounded bounding size and truthy corner radius only. -/
def imageLeaf (node : FigmaNode) : SlimNode :=
  let wh : Option Int × Option Int :=
    match node.absoluteBoundingBox with
    | some b => (some (jsRound b.width), some (jsRound b.height))
    | none => (none, none)
  let cr : Option Rat :=
    match node.cornerRadius with
    | some r => if decide (r ≠ 0) then some r else none
    | none => none
  SlimNode.mk node.name ("Image") none none none none cr wh.1 wh.2 none none []

/-- The default construction step of `parse`: classify, then attach each
attribute only when the corresponding source guard holds. -/
def buildSlim (node : FigmaNode) (children : List SlimNode) (isRoot : Bool) : SlimNode :=
  let type := classifyType node
  let fillOut : Option String :=
    match getSolidFill node with
    | some f =>
      if f != ("#000000") && f != ("#ffffff") && f != ("#000000ff") && f != ("#ffffffff") then
        some f
      else none
    | none => none
  let cornerOut : Option Rat :=
    match node.cornerRadius with
    | some r => if decide (r ≠ 0) && decide (0 < r) && decide (r < 999) then some r else none
    | none => none
  let opacityOut : Option Rat :=
    match node.opacity with
    | some o => if decide (o < 1) then some (round2 o) else none
    | none => none
  let spacingOut : Option Rat :=
    if type == ("HStack") || type == ("VStack") then
      match node.itemSpacing with
      | some sp => if decide (sp ≠ 0) then some sp else none
      | none => none
    else none
  let paddingOut : Option SPadding :=
    if type == ("HStack") || type == ("VStack") then getPadding node else none
  let wh : Option Int × Option Int :=
    if type == ("Image") || isRoot then
      match node.absoluteBoundingBox with
      | some b => (some (jsRound b.width), some (jsRound b.height))
      | none => (none, none)
    else (none, none)
  SlimNode.mk node.name type none none fillOut opacityOut cornerOut wh.1 wh.2 spacingOut paddingOut children

-- ───────────────────────── Recursive compressor ─────────────────────────

/-- Fuel-indexed form of `parse`.  A call at source depth `d` corresponds
to fuel `21 - d`: fuel `0` is exactly the `depth > 20` guard returning
null, and each recursion into children burns one unit of fuel, matching
`depth + 1`. -/
def parseF : Nat → FigmaNode → Bool → Option SlimNode
  | 0, _, _ => none
  | fuel + 1, node, isRoot =>
    if isDecorative node then none
    else if isEmptyLeaf node then none
    else if node.type == ("TEXT") && charsTruthy node then
      textLeaf node (node.characters.getD (""))
    else
      match node.children.filterMap (fun c => parseF fuel c false) with
      | [] =>
        if node.type != ("TEXT") then
          if hasImageFill node then some (imageLeaf node) else none
        else some (buildSlim node [] isRoot)
      | [c] =>
        if !isRoot && !(wrapperMeaningful node) then
          if isGenericName node then some c else some (c.withName node.name)
        else some (buildSlim node [c] isRoot)
      | c1 :: c2 :: rest => some (buildSlim node (c1 :: c2 :: rest) isRoot)

/-- `parse(node, depth, isRoot)` of the source. -/
def parse (node : FigmaNode) (depth : Nat) (isRoot : Bool) : Option SlimNode :=
  parseF (21 - depth) node isRoot

/-- The child-collection loop of `parse`: compress every raw child at the
given depth, dropping the absent results. -/
def parseChildren (ns : List FigmaNode) (depth : Nat) : List SlimNode :=
  ns.filterMap (fun c => parse c depth false)

-- ───────────────────────── Token extraction and assembly ─────────────────────────

/-- A style-map value: a string, or something of any other type. -/
inductive StyleValue where
  | str (s : String)
  | other
deriving DecidableEq

/-- `extractTokens`: keep only the string-valued entries. -/
def extractTokens (styles : List (String × StyleValue)) : List (String × String) :=
  styles.filterMap (fun kv =>
    match kv.2 with
    | .str s => some (kv.1, s)
    | .other => none)

/-- The `SlimTree` envelope. -/
structure SlimTree where
  screen : String
  width : Int
  height : Int
  components : List SlimNode
  tokens : List (String × String)

/-- The pure core of `getSwiftTree` after the fetch: extract tokens,
compress the root at depth 0, and build the envelope.  `components` is the
child list of the compressed root when present, else the root itself, else
nothing. -/
def assembleTree (node : FigmaNode) (styles : List (String × StyleValue)) : SlimTree :=
  let tokens := extractTokens styles
  let parsed := parse node 0 true
  let wh : Int × Int :=
    match node.absoluteBoundingBox with
    | some b => (jsRound b.width, jsRound b.height)
    | none => (0, 0)
  ⟨node.name, wh.1, wh.2,
   (match parsed with
    | some p => if p.children.isEmpty then [p] else p.children
    | none => []),
   tokens⟩

-- ───────────────────────── Fetch boundary ─────────────────────────

/-- Upstream response for the node fetch, already JSON-decoded: HTTP
success flag and status, the error body text, and the `nodes` record
mapping node ids to a document plus its styles. -/
structure NodeResponse where
  ok : Bool
  status : Nat
  errorBody : String
  nodes : List (String × (FigmaNode × List (String × StyleValue)))

/-- `fetchFigmaNode`: throws (modelled as `Except.error`) on a non-success
response or a missing node id. -/
def fetchFigmaNode (fileKey : String) (nodeId : String) (resp : NodeResponse) :
    Except String (FigmaNode × List (String × StyleValue)) :=
  if !resp.ok then
    Except.error (("Figma API error ") ++ toString resp.status ++ (": ") ++ resp.errorBody)
  else
    match resp.nodes.lookup nodeId with
    | some nd => Except.ok nd
    | none => Except.error (("Node ") ++ nodeId ++ (" not found in file ") ++ fileKey)

/-- Upstream response for the local-variables fetch. -/
structure VariablesResponse where
  ok : Bool
  status : Nat
  body : List (String × StyleValue)

/-- `fetchFigmaVariables`: on a non-success response it logs and returns
the empty record; it never throws. -/
def fetchFigmaVariables (resp : VariablesResponse) :
    Except String (List (String × StyleValue)) :=
  if !resp.ok then Except.ok []
  else Except.ok resp.body

/-- `getSwiftTree`: fetch the node (propagating its failure), then
assemble the slim tree from the fetched document and styles. -/
def getSwiftTree (fileKey : String) (nodeId : String) (resp : NodeResponse) :
    Except String SlimTree :=
  match fetchFigmaNode fileKey nodeId resp with
  | Except.error e => Except.error e
  | Except.ok nd => Except.ok (assembleTree nd.1 nd.2)

-- ───────────────────────── MCP tool handler ─────────────────────────

/-- The `get_swift_tree` tool arguments: file key, node id, and the
optional `depth` input declared in the schema. -/
structure ToolArgs where
  fileKey : String
  nodeId : String
  depth : Option Rat

/-- A tool invocation result: the serialized tree, or an error message
with `isError` set. -/
inductive ToolResult where
  | success (tree : SlimTree)
  | failure (message : String)

/-- The `get_swift_tree` handler: it destructures only `fileKey` and
`nodeId` from its arguments, fetches, and wraps errors.  The network is
modelled as a map from the two used request parameters to a response. -/
def get_swift_tree_handler (args : ToolArgs) (world : String → String → NodeResponse) :
    ToolResult :=
  match getSwiftTree args.fileKey args.nodeId (world args.fileKey args.nodeId) with
  | Except.ok tree => ToolResult.success tree
  | Except.error msg => ToolResult.failure (("Error fetching Figma node: ") ++ msg)

-- ───────────────────────── Output-tree predicates ─────────────────────────

/-- `SlimAll P s`: `P` holds at `s` and at every node of its subtree. -/
inductive SlimAll (P : SlimNode → Prop) : SlimNode → Prop where
  | intro (s : SlimNode) (hp : P s) (hc : ∀ c ∈ s.children, SlimAll P c) : SlimAll P s

/-- The corner-radius invariant the output actually satisfies: a present
radius is nonzero, and away from the childless-image fallback it lies
strictly between 0 and 999. -/
def radInvariant (s : SlimNode) : Prop :=
  ∀ r : Rat, s.cornerRadius = some r →
    r ≠ 0 ∧ ((s.type = ("Image") ∧ s.children = []) ∨ (0 < r ∧ r < 999))

-- ───────────────────────── Claim C7: the spec-side precedence list ─────────────────────────

/-- Modelled from the spec wording of the classification precedence: the
ordered rule list, first match wins. -/
def classifyRules (n : FigmaNode) : List (Bool × String) :=
  [(n.type == ("TEXT"), ("Text")),
   (n.type == ("VECTOR") || n.type == ("BOOLEAN_OPERATION"), ("Shape")),
   (hasImageFill n && !hasTextDescendant n, ("Image")),
   (n.layoutMode == some ("HORIZONTAL"), ("HStack")),
   (n.layoutMode == some ("VERTICAL"), ("VStack")),
   (n.type == ("INSTANCE") || n.type == ("COMPONENT"), ("Component")),
   (n.type == ("FRAME") || n.type == ("GROUP"), ("Frame"))]

/-- First-match-wins evaluation of an ordered rule list with a default. -/
def firstMatch : List (Bool × String) → String → String
  | [], dflt => dflt
  | (c, r) :: rest, dflt => if c then r else firstMatch rest dflt

-- ───────────────────────── Concrete inputs for the claims ─────────────────────────

/-- C1 scenario: the childless vector inside the wrapper. -/
def c1vector : FigmaNode :=
  .mk ("3") ("Vector") ("VECTOR") [] none none [] none none none none none none none none none

/-- C1 scenario: the "Icon Wrapper" frame holding only the vector. -/
def c1wrapper : FigmaNode :=
  .mk ("2") ("Icon Wrapper") ("FRAME") [c1vector] none none [] none none none none none none none none none

/-- C1 scenario: the "Hello" text node with a black solid fill. -/
def c1hello : FigmaNode :=
  .mk ("1") ("Hello") ("TEXT") [] (some ("Hello")) none
    [⟨("SOLID"), some ⟨0, 0, 0, 1⟩, none⟩] none none none none none none none none none

/-- C1 scenario: the vertical auto-layout root, itemSpacing 12, no padding. -/
def c1root : FigmaNode :=
  .mk ("0") ("Root") ("FRAME") [c1hello, c1wrapper] none none [] none (some ("VERTICAL"))
    (some 12) none none none none none none

/-- The slim node the C1 scenario actually produces for the text child. -/
def c1helloSlim : SlimNode :=
  .mk ("Hello") ("Text") (some ("Hello")) none none none none none none none none []

/-- The compressed root the C1 scenario actually produces. -/
def c1actual : SlimNode :=
  .mk ("Root") ("VStack") none none none none none none none (some 12) none [c1helloSlim]

/-- C2 counterexample input: a text leaf with opacity one half. -/
def c2raw : FigmaNode :=
  .mk ("1") ("Title") ("TEXT") [] (some ("Hi")) none [] none none none none none none none
    (some (1 / 2)) none

/-- What the C2 counterexample compresses to: no opacity field. -/
def c2out : SlimNode :=
  .mk ("Title") ("Text") (some ("Hi")) none none none none none none none none []

/-- C2 witness input: two text children, so the default construction runs. -/
def c2wA : FigmaNode :=
  .mk ("1") ("A") ("TEXT") [] (some ("A")) none [] none none none none none none none none none

def c2wB : FigmaNode :=
  .mk ("2") ("B") ("TEXT") [] (some ("B")) none [] none none none none none none none none none

def c2wBox : FigmaNode :=
  .mk ("0") ("Box") ("FRAME") [c2wA, c2wB] none none [] none none none none none none none
    (some (1 / 2)) none

/-- C3 counterexample input: a frame with corner radius 150 over one text child. -/
def c3text : FigmaNode :=
  .mk ("1") ("Body") ("TEXT") [] (some ("Hi")) none [] none none none none none none none none none

def c3root : FigmaNode :=
  .mk ("0") ("Card") ("FRAME") [c3text] none none [] (some 150) none none none none none none none none

def c3textSlim : SlimNode :=
  .mk ("Body") ("Text") (some ("Hi")) none none none none none none none none []

def c3out : SlimNode :=
  .mk ("Card") ("Frame") none none none none (some 150) none none none none [c3textSlim]

/-- C3 witness input: a lone text root. -/
def c3wNode : FigmaNode :=
  .mk ("0") ("Note") ("TEXT") [] (some ("Hi")) none [] none none none none none none none none none

def c3wOut : SlimNode :=
  .mk ("Note") ("Text") (some ("Hi")) none none none none none none none none []

/-- C4 witness input: a meaningless wrapper named "Card" over one text child. -/
def c4text : FigmaNode :=
  .mk ("1") ("Hi") ("TEXT") [] (some ("Hi")) none [] none none none none none none none none none

def c4wrapper : FigmaNode :=
  .mk ("0") ("Card") ("FRAME") [c4text] none none [] none none none none none none none none none

def c4childSlim : SlimNode :=
  .mk ("Hi") ("Text") (some ("Hi")) none none none none none none none none []

/-- C5 counterexample input: an "overlay" wrapper with a single text child
under a plain root. -/
def c5text : FigmaNode :=
  .mk ("2") ("Label") ("TEXT") [] (some ("Hi")) none [] none none none none none none none none none

def c5wrapper : FigmaNode :=
  .mk ("1") ("overlay") ("FRAME") [c5text] none none [] none none none none none none none none none

def c5root : FigmaNode :=
  .mk ("0") ("Root") ("FRAME") [c5wrapper] none none [] none none none none none none none none none

/-- The childless output node named "overlay" produced by flattening. -/
def c5bad : SlimNode :=
  .mk ("overlay") ("Text") (some ("Hi")) none none none none none none none none []

def c5out : SlimNode :=
  .mk ("Root") ("Frame") none none none none none none none none none [c5bad]

/-- C5 witness input: a lone text root. -/
def c5wNode : FigmaNode :=
  .mk ("0") ("Greeting") ("TEXT") [] (some ("Hey")) none [] none none none none none none none none none

def c5wOut : SlimNode :=
  .mk ("Greeting") ("Text") (some ("Hey")) none none none none none none none none []

/-- C6 witness input: a content-rich text node sitting at depth 25. -/
def c6deep : FigmaNode :=
  .mk ("9") ("Deep") ("TEXT") [] (some ("Important")) none [] none none none none none none none none none

/-- C8 witness input: a failed variables response with a nonempty body. -/
def c8resp : VariablesResponse :=
  ⟨false, 403, [(("Brand/Primary"), .str ("#be845d"))]⟩

/-- C9 witness inputs: a childless text node with no characters, and a
whitespace-only text node. -/
def c9empty : FigmaNode :=
  .mk ("1") ("Placeholder") ("TEXT") [] none none [] none none none none none none none none none

def c9blank : FigmaNode :=
  .mk ("2") ("Spacer") ("TEXT") [] (some ("  ")) none [] none none none none none none none none none

/-- C10 witness inputs: identical requests that differ only in `depth`. -/
def c10argsA : ToolArgs := ⟨("fileK"), ("12:34"), none⟩

def c10argsB : ToolArgs := ⟨("fileK"), ("12:34"), some 5⟩

def c10node : FigmaNode :=
  .mk ("1") ("Home") ("TEXT") [] (some ("Hello")) none [] none none none none none none none none none

def c10world : String → String → NodeResponse :=
  fun _ _ => ⟨true, 200, (""), [(("12:34"), (c10node, [(("tok"), .str ("#ffffff"))]))]⟩

-- ───────────────────────── Helper lemmas ─────────────────────────

theorem buildSlim_name (n : FigmaNode) (ch : List SlimNode) (r : Bool) :
    (buildSlim n ch r).name = n.name := rfl

theorem buildSlim_type (n : FigmaNode) (ch : List SlimNode) (r : Bool) :
    (buildSlim n ch r).type = classifyType n := rfl

theorem buildSlim_children (n : FigmaNode) (ch : List SlimNode) (r : Bool) :
    (buildSlim n ch r).children = ch := rfl

theorem buildSlim_content (n : FigmaNode) (ch : List SlimNode) (r : Bool) :
    (buildSlim n ch r).content = none := rfl

theorem buildSlim_cornerRadius (n : FigmaNode) (ch : List SlimNode) (r : Bool) :
    (buildSlim n ch r).cornerRadius =
      (match n.cornerRadius with
       | some x => if decide (x ≠ 0) && decide (0 < x) && decide (x < 999) then some x else none
       | none => none) := rfl

theorem buildSlim_opacity (n : FigmaNode) (ch : List SlimNode) (r : Bool) :
    (buildSlim n ch r).opacity =
      (match n.opacity with
       | some o => if decide (o < 1) then some (round2 o) else none
       | none => none) := rfl

theorem imageLeaf_name (n : FigmaNode) : (imageLeaf n).name = n.name := rfl

theorem imageLeaf_type (n : FigmaNode) : (imageLeaf n).type = ("Image") := rfl

theorem imageLeaf_children (n : FigmaNode) : (imageLeaf n).children = [] := rfl

theorem imageLeaf_cornerRadius (n : FigmaNode) :
    (imageLeaf n).cornerRadius =
      (match n.cornerRadius with
       | some x => if decide (x ≠ 0) then some x else none
       | none => none) := rfl

theorem withName_name (s : SlimNode) (m : String) : (s.withName m).name = m := by
  cases s; rfl

theorem withName_children (s : SlimNode) (m : String) : (s.withName m).children = s.children := by
  cases s; rfl

theorem withName_type (s : SlimNode) (m : String) : (s.withName m).type = s.type := by
  cases s; rfl

theorem withName_cornerRadius (s : SlimNode) (m : String) :
    (s.withName m).cornerRadius = s.cornerRadius := by
  cases s; rfl

theorem decorativeNameOnly_eq_false (n : FigmaNode) (h : isDecorative n = false) :
    decorativeNameOnly n.name = false := by
  simp only [isDecorative, Bool.or_eq_false_iff] at h
  exact h.1.2

theorem isEmptyLeaf_eq_false_of_children (n : FigmaNode) (h : n.children ≠ []) :
    isEmptyLeaf n = false := by
  cases hc : n.children with
  | nil => exact absurd hc h
  | cons a t => simp [isEmptyLeaf, hc]

theorem slimAll_leaf (P : SlimNode → Prop) (s : SlimNode) (hp : P s) (hch : s.children = []) :
    SlimAll P s :=
  ⟨s, hp, by intro c hc; rw [hch] at hc; exact absurd hc (List.not_mem_nil c)⟩

theorem SlimAll.self {P : SlimNode → Prop} {s : SlimNode} (h : SlimAll P s) : P s := by
  cases h with
  | intro _ hp _ => exact hp

theorem SlimAll.child {P : SlimNode → Prop} {s : SlimNode} (h : SlimAll P s) :
    ∀ c ∈ s.children, SlimAll P c := by
  cases h with
  | intro _ _ hc => exact hc

-- ───────────────────────── Easy claim theorems (draft) ─────────────────────────

/-- C1 counterexample: on the scenario input the compressed root has exactly
one child, not the claimed two.  The childless vector carries no image fill,
so the all-children-pruned rule drops it, and the emptied Icon Wrapper frame
is then dropped as well. -/
theorem c1_counterexample :
    parse c1root 0 true = some c1actual ∧ c1actual.children.length = 1 ∧
    c1actual.type = ("VStack") :=
  ⟨by with_unfolding_all rfl, rfl, rfl⟩

/-- C1 (amended): on the scenario input — a vertical auto-layout frame with
itemSpacing 12 containing the text node Hello with a black fill and a frame
named Icon Wrapper holding a single vector — compression yields a VStack root
with spacing 12 whose only child is the Text node Hello (content Hello, no
fill field, black being the default); the Icon Wrapper subtree is pruned
entirely, and assembly returns exactly that Text node as the components. -/
theorem c1_amended :
    parse c1root 0 true = some c1actual ∧
    (assembleTree c1root []).components = [c1helloSlim] ∧
    c1actual.type = ("VStack") ∧ c1actual.spacing = some 12 ∧
    c1actual.children = [c1helloSlim] ∧
    c1helloSlim.type = ("Text") ∧ c1helloSlim.content = some ("Hello") ∧
    c1helloSlim.fill = none :=
  ⟨by with_unfolding_all rfl, by with_unfolding_all rfl, rfl, rfl, rfl, rfl, rfl, rfl⟩

/-- C2 counterexample: a text leaf with raw opacity one half (strictly below
1) is compressed by the text-leaf branch, which never attaches an opacity
field, so presence of opacity in the output is not equivalent to the raw
value being below 1. -/
theorem c2_counterexample :
    parse c2raw 0 false = some c2out ∧ c2raw.opacity = some (1 / 2) ∧
    ((1 / 2 : Rat) < 1) ∧ c2out.opacity = none :=
  ⟨by with_unfolding_all rfl, rfl, by norm_num, rfl⟩

/-- C3 counterexample: a corner radius of 150 on a root frame with a text
child survives into the output, although the claim says radii of 100 or more
are always elided; the cutoff used by the default construction is 999. -/
theorem c3_counterexample :
    parse c3root 0 true = some c3out ∧ c3out.cornerRadius = some 150 ∧
    ¬((150 : Rat) < 100) :=
  ⟨by with_unfolding_all rfl, rfl, by norm_num⟩

/-- C5 counterexample: a childless output node named overlay — matching the
decorative denylist — appears in the output tree: an overlay wrapper with one
child is not itself decorative, and single-child flattening renames its
surviving leaf child to overlay. -/
theorem c5_counterexample :
    parse c5root 0 true = some c5out ∧ c5out.children = [c5bad] ∧
    outputDenylistMatch c5bad = true :=
  ⟨by with_unfolding_all rfl, rfl, by with_unfolding_all rfl⟩

/-- Any compression call strictly beyond the depth cap of 20 yields absence,
not an error. -/
theorem parse_none_of_depth_exceeded (n : FigmaNode) (d : Nat) (r : Bool) (hd : 20 < d) :
    parse n d r = none := by
  unfold parse
  have h21 : 21 - d = 0 := by omega
  rw [h21]
  rfl

/-- C6: a node lying deeper than the depth cap of 20 (for instance at depth
25) is compressed to absence regardless of its content, so it never
contributes any node to the output tree; exceeding the cap is not an error
but yields the absent value. -/
theorem c6_depth_cap (n : FigmaNode) (d : Nat) (r : Bool) (hd : 20 < d) :
    parse n d r = none :=
  parse_none_of_depth_exceeded n d r hd

/-- Witness for C6: a content-rich text node at depth 25 contributes
nothing. -/
theorem c6_depth_cap_witness : parse c6deep 25 false = none :=
  c6_depth_cap c6deep 25 false (by omega)

/-- C7: classifyType follows the stated precedence with first match winning:
text kind gives Text; vector or boolean-shape kind gives Shape; an image
fill with no text-kind descendant (including the node itself) gives Image,
ahead of the layout-axis rules, so it wins even when an auto-layout axis is
set; then horizontal gives HStack, vertical gives VStack, instance or
component kind gives Component, frame or group kind gives Frame, and
everything else gives View. -/
theorem c7_classify_precedence (n : FigmaNode) :
    classifyType n = firstMatch (classifyRules n) ("View") := rfl

/-- C8: when the token-retrieval step receives a non-success upstream
response it does not raise: it returns the empty token record instead of
propagating the failure, so tree retrieval is never aborted by it. -/
theorem c8_tokens_degrade (resp : VariablesResponse) (h : resp.ok = false) :
    fetchFigmaVariables resp = Except.ok [] := by
  simp [fetchFigmaVariables, h]

/-- Witness for C8 at a concrete failed response with a nonempty body. -/
theorem c8_tokens_degrade_witness : fetchFigmaVariables c8resp = Except.ok [] :=
  c8_tokens_degrade c8resp rfl

/-- C10: the tool handler discards the optional depth argument: two
invocations that agree on fileKey and nodeId produce identical results under
any fixed network behavior, whatever depth values were supplied. -/
theorem c10_depth_no_effect (a b : ToolArgs) (world : String → String → NodeResponse)
    (hk : a.fileKey = b.fileKey) (hn : a.nodeId = b.nodeId) :
    get_swift_tree_handler a world = get_swift_tree_handler b world := by
  unfold get_swift_tree_handler
  rw [hk, hn]

/-- Witness for C10: requests differing only in depth give equal results. -/
theorem c10_depth_no_effect_witness :
    get_swift_tree_handler c10argsA c10world = get_swift_tree_handler c10argsB c10world :=
  c10_depth_no_effect c10argsA c10argsB c10world rfl rfl

/-- C4: a non-root node whose surviving compressed child list is exactly one
child, with a default solid fill (absent, or black/white in 6- or 8-digit
hex), no corner radius strictly between 0 and 100, and no opacity below 1,
is flattened: compression returns the child unchanged when the wrapper name
is one of the generic placeholders, and otherwise returns the child with its
name replaced by the wrapper name and all other attributes untouched. -/
theorem c4_flatten (n : FigmaNode) (c : SlimNode) (d : Nat)
    (hd : d ≤ 20) (hdec : isDecorative n = false)
    (htext : (n.type == ("TEXT") && charsTruthy n) = false)
    (hkids : parseChildren n.children (d + 1) = [c])
    (hfill : wrapperDefaultFill n = true)
    (hcorner : hasVisibleCorner n = false)
    (hopa : hasOpacityLt1 n = false) :
    parse n d false = some (if isGenericName n then c else c.withName n.name) := by
  have hsucc : 21 - d = (20 - d) + 1 := by omega
  have he : 21 - (d + 1) = 20 - d := by omega
  have hk2 : n.children.filterMap (fun x => parseF (20 - d) x false) = [c] := by
    simpa [parseChildren, parse, he] using hkids
  have hne : n.children ≠ [] := by
    intro h0
    rw [h0] at hk2
    simp at hk2
  have hwm : wrapperMeaningful n = false := by
    simp [wrapperMeaningful, hfill, hcorner, hopa]
  unfold parse
  rw [hsucc]
  simp only [parseF]
  rw [if_neg (by simp [hdec]), if_neg (by simp [isEmptyLeaf_eq_false_of_children n hne]),
    if_neg (by simp [htext]), hk2]
  simp only [hwm]
  cases hg : isGenericName n <;> simp [hg]

/-- Witness for C4: a wrapper named Card over one text child is flattened
with name adoption. -/
theorem c4_flatten_witness : parse c4wrapper 0 false = some (c4childSlim.withName ("Card")) := by
  have h := c4_flatten c4wrapper c4childSlim 0 (by omega) (by with_unfolding_all rfl)
    (by with_unfolding_all rfl) (by with_unfolding_all rfl) (by with_unfolding_all rfl)
    (by with_unfolding_all rfl) (by with_unfolding_all rfl)
  rw [h]
  with_unfolding_all rfl

/-- C9: a TEXT-kind node whose characters are absent or the empty string and
which has no children is not pruned: it compresses to a Text-category node
carrying the name and no content field; a TEXT node whose characters are
whitespace-only is instead pruned to absent. -/
theorem c9_empty_text (n m : FigmaNode) (d e : Nat) (r r2 : Bool)
    (hd : d ≤ 20) (hdec : isDecorative n = false) (ht : n.type = ("TEXT"))
    (hch : n.children = []) (hc : n.characters = none ∨ n.characters = some (""))
    (hmt : m.type = ("TEXT"))
    (hmc : ∃ s0, m.characters = some s0 ∧ s0 ≠ ("") ∧ s0.trim = ("")) :
    (parse n d r = some (buildSlim n [] r) ∧ (buildSlim n [] r).type = ("Text") ∧
     (buildSlim n [] r).name = n.name ∧ (buildSlim n [] r).content = none) ∧
    parse m e r2 = none := by
  constructor
  · have hsucc : 21 - d = (20 - d) + 1 := by omega
    have hempty : isEmptyLeaf n = false := by
      rcases hc with h | h <;> simp [isEmptyLeaf, ht, hch, h]
    have hct : charsTruthy n = false := by
      rcases hc with h | h <;> simp [charsTruthy, h]
    refine ⟨?_, ?_, rfl, rfl⟩
    · unfold parse
      rw [hsucc]
      simp only [parseF]
      rw [if_neg (by simp [hdec]), if_neg (by simp [hempty]), if_neg (by simp [hct]), hch]
      simp [ht]
    · rw [buildSlim_type]
      simp [classifyType, ht]
  · rcases hmc with ⟨s0, hs0, hne0, htrim⟩
    by_cases hde : 20 < e
    · exact parse_none_of_depth_exceeded m e r2 hde
    · have hsucc : 21 - e = (20 - e) + 1 := by omega
      unfold parse
      rw [hsucc]
      simp only [parseF]
      by_cases hdm : isDecorative m = true
      · rw [if_pos (by simp [hdm])]
      · have hempty : isEmptyLeaf m = false := by
          cases hmch : m.children with
          | nil => simp [isEmptyLeaf, hmt, hs0, htrim, hmch]
          | cons a t => simp [isEmptyLeaf, hmch]
        rw [if_neg (by simp [hdm]), if_neg (by simp [hempty]),
          if_pos (by simp [hmt, charsTruthy, hs0, hne0])]
        simp [textLeaf, hs0, htrim]

/-- Witness for C9: a childless TEXT node without characters is kept as a
contentless Text node, and a whitespace-only TEXT node is pruned. -/
theorem c9_empty_text_witness :
    (parse c9empty 0 false = some (buildSlim c9empty [] false) ∧
     (buildSlim c9empty [] false).type = ("Text") ∧
     (buildSlim c9empty [] false).name = c9empty.name ∧
     (buildSlim c9empty [] false).content = none) ∧
    parse c9blank 0 false = none :=
  c9_empty_text c9empty c9blank 0 0 false false (by omega) (by with_unfolding_all rfl)
    rfl rfl (Or.inl rfl) rfl ⟨("  "), rfl, by decide, by with_unfolding_all rfl⟩

/-- C2 (amended): on the default construction path — a compressible node
that is not a text leaf and has at least two surviving children — an opacity
field is present iff the raw opacity is defined and strictly below 1, and it
then equals the raw value rounded to two decimal places.  The text-leaf,
icon, and childless-image paths never attach an opacity field of their own. -/
theorem c2_amended (n : FigmaNode) (d : Nat) (r : Bool)
    (hd : d ≤ 20) (hdec : isDecorative n = false)
    (htext : (n.type == ("TEXT") && charsTruthy n) = false)
    (hkids : 2 ≤ (parseChildren n.children (d + 1)).length) :
    ∃ s, parse n d r = some s ∧ s.name = n.name ∧
      (∀ v : Rat, s.opacity = some v ↔ ∃ o, n.opacity = some o ∧ o < 1 ∧ v = round2 o) := by
  have hsucc : 21 - d = (20 - d) + 1 := by omega
  have he : 21 - (d + 1) = 20 - d := by omega
  have hk2 : 2 ≤ (n.children.filterMap (fun x => parseF (20 - d) x false)).length := by
    simpa [parseChildren, parse, he] using hkids
  have hne : n.children ≠ [] := by
    intro h0
    rw [h0] at hk2
    simp at hk2
  rcases hfm : n.children.filterMap (fun x => parseF (20 - d) x false) with _ | ⟨x, _ | ⟨y, rest⟩⟩
  · rw [hfm] at hk2
    simp at hk2
  · rw [hfm] at hk2
    simp at hk2
  · refine ⟨buildSlim n (x :: y :: rest) r, ?_, rfl, ?_⟩
    · unfold parse
      rw [hsucc]
      simp only [parseF]
      rw [if_neg (by simp [hdec]), if_neg (by simp [isEmptyLeaf_eq_false_of_children n hne]),
        if_neg (by simp [htext]), hfm]
    · intro v
      rw [buildSlim_opacity]
      cases ho : n.opacity with
      | none => simp
      | some o =>
        by_cases hlt : o < 1 <;> simp [hlt, eq_comm]

/-- Witness for the amended C2 theorem: a frame with opacity one half over
two text children. -/
theorem c2_amended_witness :
    ∃ s, parse c2wBox 0 false = some s ∧ s.name = c2wBox.name ∧
      (∀ v : Rat, s.opacity = some v ↔ ∃ o, c2wBox.opacity = some o ∧ o < 1 ∧ v = round2 o) :=
  c2_amended c2wBox 0 false (by omega) (by with_unfolding_all rfl)
    (by with_unfolding_all rfl) (by with_unfolding_all exact Nat.le.refl)

theorem textLeaf_fields (n : FigmaNode) (s0 : String) (s : SlimNode) (h : textLeaf n s0 = some s) :
    s.name = n.name ∧ s.children = [] ∧ s.cornerRadius = none := by
  simp only [textLeaf] at h
  split at h
  · exact absurd h (by simp)
  · split at h <;> (cases h; exact ⟨rfl, rfl, rfl⟩)

theorem parseF_slimAll (P : SlimNode → Prop)
    (htext : ∀ (n : FigmaNode) (s0 : String) (s : SlimNode),
      isDecorative n = false → textLeaf n s0 = some s → P s)
    (himg : ∀ n : FigmaNode, isDecorative n = false → P (imageLeaf n))
    (hbuild : ∀ (n : FigmaNode) (ch : List SlimNode) (r : Bool),
      isDecorative n = false → P (buildSlim n ch r))
    (hwith : ∀ (n : FigmaNode) (c : SlimNode),
      isDecorative n = false → P c → P (c.withName n.name)) :
    ∀ (fuel : Nat) (n : FigmaNode) (r : Bool) (s : SlimNode),
      parseF fuel n r = some s → SlimAll P s := by
  intro fuel
  induction fuel with
  | zero =>
    intro n r s h
    simp [parseF] at h
  | succ fuel ih =>
    intro n r s h
    simp only [parseF] at h
    by_cases hdec : isDecorative n = true
    · rw [if_pos hdec] at h
      exact absurd h (by simp)
    · have hdec' : isDecorative n = false := by simpa using hdec
      rw [if_neg hdec] at h
      by_cases hempty : isEmptyLeaf n = true
      · rw [if_pos hempty] at h
        exact absurd h (by simp)
      · rw [if_neg hempty] at h
        by_cases htl : (n.type == ("TEXT") && charsTruthy n) = true
        · rw [if_pos htl] at h
          exact slimAll_leaf P s (htext n _ s hdec' h) (textLeaf_fields n _ s h).2.1
        · rw [if_neg htl] at h
          rcases hfm : n.children.filterMap (fun c => parseF fuel c false) with _ | ⟨c1, _ | ⟨c2, rest⟩⟩ <;>
            rw [hfm] at h <;> simp only [] at h
          · by_cases hty : (n.type != ("TEXT")) = true
            · rw [if_pos hty] at h
              by_cases himf : hasImageFill n = true
              · rw [if_pos himf] at h
                cases h
                exact slimAll_leaf P _ (himg n hdec') (imageLeaf_children n)
              · rw [if_neg himf] at h
                exact absurd h (by simp)
            · rw [if_neg hty] at h
              cases h
              exact slimAll_leaf P _ (hbuild n [] r hdec') (buildSlim_children n [] r)
          · have hc1 : SlimAll P c1 := by
              have hm : c1 ∈ n.children.filterMap (fun c => parseF fuel c false) := by
                rw [hfm]
                simp
              rcases List.mem_filterMap.mp hm with ⟨a, _, hpa⟩
              exact ih a false c1 hpa
            by_cases hfl : (!r && !(wrapperMeaningful n)) = true
            · rw [if_pos hfl] at h
              by_cases hg : isGenericName n = true
              · rw [if_pos hg] at h
                cases h
                exact hc1
              · rw [if_neg hg] at h
                cases h
                refine ⟨_, hwith n c1 hdec' hc1.self, ?_⟩
                intro x hx
                rw [withName_children] at hx
                exact hc1.child x hx
            · rw [if_neg hfl] at h
              cases h
              refine ⟨_, hbuild n [c1] r hdec', ?_⟩
              intro x hx
              rw [buildSlim_children] at hx
              rcases List.mem_singleton.mp hx with rfl
              exact hc1
          · cases h
            refine ⟨_, hbuild n (c1 :: c2 :: rest) r hdec', ?_⟩
            intro x hx
            rw [buildSlim_children] at hx
            have hm : x ∈ n.children.filterMap (fun c => parseF fuel c false) := by
              rw [hfm]
              exact hx
            rcases List.mem_filterMap.mp hm with ⟨a, _, hpa⟩
            exact ih a false x hpa

theorem radInvariant_textLeaf (n : FigmaNode) (s0 : String) (s : SlimNode)
    (h : textLeaf n s0 = some s) : radInvariant s := by
  intro rr hrr
  rw [(textLeaf_fields n s0 s h).2.2] at hrr
  simp at hrr

theorem radInvariant_imageLeaf (n : FigmaNode) : radInvariant (imageLeaf n) := by
  intro rr hrr
  rw [imageLeaf_cornerRadius] at hrr
  cases hcr : n.cornerRadius with
  | none =>
    rw [hcr] at hrr
    simp at hrr
  | some x =>
    rw [hcr] at hrr
    by_cases hx : x = 0
    · simp [hx] at hrr
    · simp [hx] at hrr
      subst hrr
      exact ⟨hx, Or.inl ⟨rfl, rfl⟩⟩

theorem radInvariant_buildSlim (n : FigmaNode) (ch : List SlimNode) (r : Bool) :
    radInvariant (buildSlim n ch r) := by
  intro rr hrr
  rw [buildSlim_cornerRadius] at hrr
  cases hcr : n.cornerRadius with
  | none =>
    rw [hcr] at hrr
    simp at hrr
  | some x =>
    rw [hcr] at hrr
    by_cases h1 : x = 0
    · simp [h1] at hrr
    · by_cases h2 : 0 < x
      · by_cases h3 : x < 999
        · simp [h1, h2, h3] at hrr
          subst hrr
          exact ⟨h1, Or.inr ⟨h2, h3⟩⟩
        · simp [h1, h2, h3] at hrr
      · simp [h1, h2] at hrr

theorem radInvariant_withName (c : SlimNode) (m : String) (h : radInvariant c) :
    radInvariant (c.withName m) := by
  intro rr hrr
  rw [withName_cornerRadius] at hrr
  rcases h rr hrr with ⟨hne, hca⟩
  refine ⟨hne, ?_⟩
  rcases hca with ⟨hty, hch⟩ | hb
  · exact Or.inl ⟨by rw [withName_type, hty], by rw [withName_children, hch]⟩
  · exact Or.inr hb

/-- C3 (amended): every corner radius present anywhere in the output tree is
nonzero, and on every node other than a childless Image fallback node it lies
strictly between 0 and 999; the childless-image fallback copies any nonzero
raw radius unchanged. -/
theorem c3_amended (n : FigmaNode) (d : Nat) (r : Bool) (s : SlimNode)
    (h : parse n d r = some s) : SlimAll radInvariant s :=
  parseF_slimAll radInvariant
    (fun n s0 s _ ht => radInvariant_textLeaf n s0 s ht)
    (fun n _ => radInvariant_imageLeaf n)
    (fun n ch r _ => radInvariant_buildSlim n ch r)
    (fun n c _ hc => radInvariant_withName c n.name hc)
    (21 - d) n r s h

/-- Witness for the amended C3 theorem at a concrete one-node input. -/
theorem c3_amended_witness : SlimAll radInvariant c3wOut :=
  c3_amended c3wNode 0 true c3wOut (by with_unfolding_all rfl)

/-- C5 (amended): no node whose trimmed lower-cased name matches one of the
unconditional entries of the decorative denylist (system chrome, visual
effects, background placeholders, scroll chrome, structural noise) ever
appears anywhere in the output tree, flattening renames included; only the
childless-overlay entry can be reintroduced, by a rename. -/
theorem c5_amended (n : FigmaNode) (d : Nat) (r : Bool) (s : SlimNode)
    (h : parse n d r = some s) :
    SlimAll (fun t => decorativeNameOnly t.name = false) s :=
  parseF_slimAll (fun t => decorativeNameOnly t.name = false)
    (fun n s0 s hdec ht => by
      show decorativeNameOnly s.name = false
      rw [(textLeaf_fields n s0 s ht).1]
      exact decorativeNameOnly_eq_false n hdec)
    (fun n hdec => by
      show decorativeNameOnly (imageLeaf n).name = false
      rw [imageLeaf_name]
      exact decorativeNameOnly_eq_false n hdec)
    (fun n ch r hdec => by
      show decorativeNameOnly (buildSlim n ch r).name = false
      rw [buildSlim_name]
      exact decorativeNameOnly_eq_false n hdec)
    (fun n c hdec _ => by
      show decorativeNameOnly (c.withName n.name).name = false
      rw [withName_name]
      exact decorativeNameOnly_eq_false n hdec)
    (21 - d) n r s h

/-- Witness for the amended C5 theorem at a concrete one-node input. -/
theorem c5_amended_witness : SlimAll (fun t => decorativeNameOnly t.name = false) c5wOut :=
  c5_amended c5wNode 0 true c5wOut (by with_unfolding_all rfl)
